import Mathlib

/-
  Verification development for the friday repository (src/main.py).

  The webhook endpoint receive_message (main.py lines 94-132), its inlined
  signature verification (lines 98-116), the Intercom workflow helpers
  (lines 135-210) and the media-stream WebSocket handler handle_media_stream
  (lines 53-91) are shallowly embedded below.  Python runtime behaviour that
  the source relies on (str.split, slicing, int(), subscripting a bytes
  object, exception propagation) is modelled explicitly; the HMAC-SHA256
  hex digest is treated as an abstract function parameter, since both the
  code and the properties only compare its output for equality.
-/

namespace Friday

/-- Decidable equality for Except values, so that concrete runs of the
embedded fallible code can be checked by evaluation. -/
instance {ε α : Type} [DecidableEq ε] [DecidableEq α] :
    DecidableEq (Except ε α) := fun a b =>
  match a, b with
  | .ok x, .ok y =>
    if h : x = y then isTrue (by rw [h]) else isFalse (by simp [h])
  | .error x, .error y =>
    if h : x = y then isTrue (by rw [h]) else isFalse (by simp [h])
  | .ok _, .error _ => isFalse (by simp)
  | .error _, .ok _ => isFalse (by simp)

/-- Python exception kinds that the embedded code can raise. -/
inductive PyErr
  | indexError
  | valueError
  | typeError
  | keyError
deriving DecidableEq, Repr

/-- Python values as far as the handler manipulates them: the raw request
body is a bytes object, JSON values would be dicts/strings/bools/ints. -/
inductive PyVal
  | none
  | bool (b : Bool)
  | int (n : Int)
  | str (s : String)
  | bytes (raw : String)
  | dict (entries : List (String × PyVal))

/-- Python subscripting `v[key]` with a string key: succeeds only on a dict
that contains the key; raises KeyError on a dict without it; raises
TypeError on every other value (in particular on a bytes object, which is
what `payload["data"]` at main.py line 120 does). -/
def pySubscript : PyVal → String → Except PyErr PyVal
  | .dict es, k =>
    match es.lookup k with
    | some v => .ok v
    | Option.none => .error .keyError
  | _, _ => .error .typeError

/-- Python truthiness, as used by `not should_support` at main.py line 129. -/
def pyTruthy : PyVal → Bool
  | .none => false
  | .bool b => b
  | .int n => n != 0
  | .str s => !s.data.isEmpty
  | .bytes s => !s.data.isEmpty
  | .dict es => !es.isEmpty

/-- Character-list worker for Python `str.split(sep)` with a one-character
separator: splits at every occurrence, keeping empty pieces. -/
def pySplitAux (sep : Char) : List Char → List Char → List String
  | [], acc => [String.mk acc.reverse]
  | c :: cs, acc =>
    if c = sep then String.mk acc.reverse :: pySplitAux sep cs []
    else pySplitAux sep cs (c :: acc)

/-- Python `s.split(sep)` for a one-character separator, e.g.
`headers.split(",")` at main.py lines 101-102.  Always returns at least one
element. -/
def pySplit (s : String) (sep : Char) : List String :=
  pySplitAux sep s.data []

/-- Python slicing `s[2:]` (drop the first two characters; shorter strings
give the empty string), as used at main.py line 101. -/
def pySlice2 (s : String) : String :=
  String.mk (s.data.drop 2)

/-- Digit run to its numeric value. -/
def charsToNat (cs : List Char) : Nat :=
  cs.foldl (fun a c => 10 * a + (c.toNat - 48)) 0

/-- Nonempty all-digit character run, else failure. -/
def digitsToNat (ds : List Char) : Option Nat :=
  if ds.isEmpty || !ds.all Char.isDigit then Option.none
  else some (charsToNat ds)

/-- Python `int(s)`: surrounding whitespace stripped, optional sign, then a
nonempty run of decimal digits; anything else raises ValueError (modelled
as `Option.none`).  Used at main.py line 105. -/
def pyInt (s : String) : Option Int :=
  let t := ((s.data.dropWhile Char.isWhitespace).reverse.dropWhile
            Char.isWhitespace).reverse
  match t with
  | '-' :: ds => (digitsToNat ds).map (fun n => -(n : Int))
  | '+' :: ds => (digitsToNat ds).map (fun n => (n : Int))
  | ds => (digitsToNat ds).map (fun n => (n : Int))

/-- Shared webhook secret (main.py line 27). -/
def secret : String := "secret"

/-- Originating admin identity (main.py line 28). -/
def admin_id : Int := 123

/-- Fixed assignee identity (main.py line 29). -/
def smrtlite_id : Int := 567

/-- Outcome of the signature-verification section of receive_message
(main.py lines 98-116), identified by which early `return` the control
flow takes; `valid` means control reaches line 118. -/
inductive VerifResult
  | missingHeader
  | stale
  | signatureMismatch
  | valid
deriving DecidableEq, Repr

/-- The signature-verification section of receive_message (main.py lines
98-116), parameterised by the HMAC-SHA256 hex-digest function `H` (first
argument the key, second the message) and the verification time `now`
(`int(time.time())`).  Header parsing failures propagate as Python
exceptions: a header with no comma-separated second field raises IndexError
at line 102, a non-integer timestamp field raises ValueError at line 105. -/
def verifyWebhook (H : String → String → String) (now : Int) (body : String)
    (header : Option String) : Except PyErr VerifResult :=
  match header with
  | Option.none => .ok .missingHeader
  | some h =>
    let fields := pySplit h ','
    let timestamp := pySlice2 (fields.headD "")
    match fields[1]? with
    | Option.none => .error .indexError
    | some hmacSignature =>
      match pyInt timestamp with
      | Option.none => .error .valueError
      | some ts =>
        let tolerance := now - 30 * 60
        if ts < tolerance then .ok .stale
        else
          let fullPayloadToSign := timestamp ++ "." ++ body
          let digest := "v0=" ++ H secret fullPayloadToSign
          if hmacSignature ≠ digest then .ok .signatureMismatch
          else .ok .valid

/-- One outbound HTTPS call to the Intercom ticketing API, as issued by the
helper functions at main.py lines 135-210. -/
inductive Action
  | contactCreate (phone : PyVal)
  | conversationCreate (transcript : PyVal) (userId : String)
  | assign (convId : String) (adminId assigneeId : Int)
  | close (convId : String) (adminId : Int)

/-- Identifiers returned by the external Intercom API (the `data["id"]`
fields of the POST responses); abstract environment, since the network is
outside the program. -/
structure IntercomEnv where
  contactId : PyVal → String
  conversationId : PyVal → String → String

/-- create_intercom_contact (main.py lines 135-152): one POST creating a
contact keyed by phone number, returning the response id. -/
def create_intercom_contact (env : IntercomEnv) (phone_number : PyVal) :
    String × List Action :=
  (env.contactId phone_number, [Action.contactCreate phone_number])

/-- create_intercom_conversation (main.py lines 155-169): one POST creating
a conversation seeded with the transcript, returning the response id. -/
def create_intercom_conversation (env : IntercomEnv) (transcript : PyVal)
    (user_id : String) : String × List Action :=
  (env.conversationId transcript user_id,
   [Action.conversationCreate transcript user_id])

/-- assign_conversation (main.py lines 191-210): one POST adding an
assignment part to the conversation. -/
def assign_conversation (conversation_id : String) (adm assignee : Int) :
    List Action :=
  [Action.assign conversation_id adm assignee]

/-- close_conversation (main.py lines 171-189): one POST adding a close
part to the conversation. -/
def close_conversation (conversation_id : String) (adm : Int) :
    List Action :=
  [Action.close conversation_id adm]

/-- The post-call workflow of receive_message (main.py lines 124-130):
contact creation, conversation creation, assignment, and a close only when
the should-support flag is false.  Returns the trace of Intercom calls in
issue order. -/
def orchestrate (env : IntercomEnv) (phone transcript : PyVal)
    (should_support : Bool) : List Action :=
  let c := create_intercom_contact env phone
  let contact_id := c.1
  let v := create_intercom_conversation env transcript contact_id
  let conversation_id := v.1
  c.2 ++ v.2 ++ assign_conversation conversation_id admin_id smrtlite_id ++
    (if !should_support then close_conversation conversation_id admin_id
     else [])

/-- Field extraction of receive_message (main.py lines 120-122): each line
subscripts the raw `payload` value (a bytes object) with string keys. -/
def extractFields (payload : PyVal) :
    Except PyErr (PyVal × PyVal × PyVal) := do
  let d1 ← pySubscript payload "data"
  let md ← pySubscript d1 "metadata"
  let pc ← pySubscript md "phone_call"
  let phone ← pySubscript pc "external_number"
  let d2 ← pySubscript payload "data"
  let a1 ← pySubscript d2 "analysis"
  let transcript ← pySubscript a1 "transcript_summary"
  let d3 ← pySubscript payload "data"
  let a2 ← pySubscript d3 "analysis"
  let ec ← pySubscript a2 "evalutation_criteria_results"
  let ss ← pySubscript ec "should_support"
  pure (phone, transcript, ss)

/-- receive_message (main.py lines 94-132).  `body` is the raw request body
(`await request.body()`, a bytes object); `header` the value of the
elevenlabs-signature header; `H` the HMAC-SHA256 hex digest; `now` the
verification time.  Returns the handler result (a Python value for a
completed return, or the propagated exception) together with the trace of
Intercom calls issued. -/
def receive_message (H : String → String → String) (now : Int)
    (env : IntercomEnv) (body : String) (header : Option String) :
    Except PyErr PyVal × List Action :=
  match verifyWebhook H now body header with
  | .error e => (.error e, [])
  | .ok .missingHeader => (.ok .none, [])
  | .ok .stale => (.ok .none, [])
  | .ok .signatureMismatch => (.ok .none, [])
  | .ok .valid =>
    match extractFields (.bytes body) with
    | .error e => (.error e, [])
    | .ok (phone, transcript, ss) =>
      (.ok (.dict [("status", .str "received")]),
       orchestrate env phone transcript (pyTruthy ss))

/-- Number of character comparisons performed by a left-to-right
short-circuit equality scan, stopping at the first differing position:
cost model of the interpreter work behind the plain string `!=` at main.py
line 115 (equal-length operands are compared character by character until
the first mismatch). -/
def scanCost : List Char → List Char → Nat
  | c :: cs, d :: ds => if c = d then 1 + scanCost cs ds else 1
  | _, _ => 0

/-- Comparison cost of Python string inequality under the short-circuit
model: a length check first (constant, cost 0 here), then the scan. -/
def strNeCost (a b : String) : Nat :=
  if a.data.length = b.data.length then scanCost a.data b.data else 0

/-- One inbound WebSocket text message of the media-stream loop (main.py
lines 74-77): the empty (falsy) message is skipped; a JSON message is, per
the Twilio media-stream protocol, either an audio-payload event (tagged by
its sequence id) or a control event; a message that `json.loads` cannot
parse raises and aborts the loop. -/
inductive TwilioMsg
  | empty
  | control
  | audio (seq : Nat)
  | badJson
deriving DecidableEq, Repr

/-- Observable events of one handle_media_stream execution (main.py lines
53-91): session construction, session start, delivery of an audio frame to
the AI-session input, handling of a control message, the end-session call,
and the wait-for-session-end call of the finally block. -/
inductive MsEvent
  | constructed
  | started
  | delivered (seq : Nat)
  | controlHandled
  | endCalled
  | waitCalled
deriving DecidableEq, Repr

/-- Modelled from the spec: `TwilioAudioInterface.handle_twilio_message`
(module twilio_audio_interface, not under src/) forwards each audio message
to the AI session input and lets control messages update session state
(spec section 4.3).  The loop itself is main.py lines 74-77: messages are
awaited one at a time in arrival order; an unparsable message raises,
which jumps to the except clause and ends the loop. -/
def runLoop : List TwilioMsg → List MsEvent
  | [] => []
  | .empty :: rest => runLoop rest
  | .control :: rest => MsEvent.controlHandled :: runLoop rest
  | .audio n :: rest => MsEvent.delivered n :: runLoop rest
  | .badJson :: _ => []

/-- One execution scenario of handle_media_stream: whether the Conversation
constructor (main.py line 62) succeeds, whether start_session (line 71)
succeeds, the inbound messages, and whether end_session (line 86)
succeeds (its failure is caught at line 89 and skips the wait). -/
structure MsScenario where
  constructOk : Bool
  startOk : Bool
  msgs : List TwilioMsg
  endOk : Bool
deriving DecidableEq, Repr

/-- The finally block of handle_media_stream (main.py lines 84-91).  When
the Conversation constructor raised, the local name `conversation` is
unbound, so evaluating it raises NameError, which the inner except catches:
no end-session call happens.  Otherwise end_session is called once, and
wait_for_session_end only if end_session did not raise. -/
def finallyBlock (constructed : Bool) (endOk : Bool) : List MsEvent :=
  if constructed then
    MsEvent.endCalled :: (if endOk then [MsEvent.waitCalled] else [])
  else []

/-- handle_media_stream (main.py lines 53-91) as the event trace of one
execution scenario.  Every path out of the try block (constructor failure,
start failure, WebSocketDisconnect at the end of the message stream, or an
exception inside the loop) runs the finally block. -/
def handle_media_stream (sc : MsScenario) : List MsEvent :=
  (if sc.constructOk then
    if sc.startOk then
      MsEvent.constructed :: MsEvent.started :: runLoop sc.msgs
    else [MsEvent.constructed]
   else [])
  ++ finallyBlock sc.constructOk sc.endOk

/-- Whether an event is the end-session call. -/
def isEnd : MsEvent → Bool
  | .endCalled => true
  | _ => false

/-- Number of end-session calls in a trace. -/
def countEnd (tr : List MsEvent) : Nat :=
  tr.countP isEnd

/-- Audio-frame sequence id carried by a delivery event. -/
def deliveredOf : MsEvent → Option Nat
  | .delivered n => some n
  | _ => Option.none

/-- The audio frames delivered to the AI-session input, in delivery order. -/
def deliveredSeqs (tr : List MsEvent) : List Nat :=
  tr.filterMap deliveredOf

/-- Audio-frame sequence id carried by an inbound message. -/
def audioOf : TwilioMsg → Option Nat
  | .audio n => some n
  | _ => Option.none

/-- The audio frames among the inbound messages, in arrival order. -/
def arrivedAudio (msgs : List TwilioMsg) : List Nat :=
  msgs.filterMap audioOf

end Friday

namespace Friday

/-! ## Helper lemmas -/

theorem string_eq_of_data {a b : String} (h : a.data = b.data) : a = b := by
  cases a; cases b; exact congrArg String.mk h

theorem vzero_append_inj {a b : String} (h : "v0=" ++ a = "v0=" ++ b) :
    a = b := by
  apply string_eq_of_data
  have hd := congrArg String.data h
  rw [String.data_append, String.data_append] at hd
  exact List.append_cancel_left hd

/-- Reduction of the verifier once the header has parsed: with a second
comma-separated field `sig` and an integer timestamp `ts`, the verifier is
the staleness test followed by the digest comparison of main.py lines
104-116. -/
theorem verifyWebhook_reduce (H : String → String → String) (now ts : Int)
    (body h sig : String)
    (hsig : (pySplit h ',')[1]? = some sig)
    (hts : pyInt (pySlice2 ((pySplit h ',').headD "")) = some ts) :
    verifyWebhook H now body (some h) =
      (if ts < now - 30 * 60 then Except.ok VerifResult.stale
       else if sig ≠ "v0=" ++ H secret
              (pySlice2 ((pySplit h ',').headD "") ++ "." ++ body)
            then Except.ok VerifResult.signatureMismatch
            else Except.ok VerifResult.valid) := by
  simp only [verifyWebhook]
  rw [hsig]
  simp only []
  rw [hts]

theorem pySplitAux_no_sep (sep : Char) (cs : List Char) (acc : List Char)
    (h : sep ∉ cs) :
    pySplitAux sep cs acc = [String.mk (acc.reverse ++ cs)] := by
  induction cs generalizing acc with
  | nil => simp [pySplitAux]
  | cons c cs ih =>
    rw [List.mem_cons, not_or] at h
    rw [pySplitAux, if_neg (fun hc => h.1 hc.symm), ih (c :: acc) h.2]
    simp

theorem pySplitAux_before_sep (sep : Char) (pre rest acc : List Char)
    (hpre : sep ∉ pre) :
    pySplitAux sep (pre ++ sep :: rest) acc =
      String.mk (acc.reverse ++ pre) :: pySplitAux sep rest [] := by
  induction pre generalizing acc with
  | nil => simp [pySplitAux]
  | cons c pre ih =>
    rw [List.mem_cons, not_or] at hpre
    rw [List.cons_append, pySplitAux, if_neg (fun hc => hpre.1 hc.symm),
      ih (c :: acc) hpre.2]
    simp

/-! ## Signature verification (claims C1, C5, C7, C9) -/

/-- C1: with a signature header whose first field carries a fresh,
parseable timestamp string `t` and whose second field is `sig`, the
verifier returns Valid exactly when `sig` equals "v0=" followed by the
HMAC-SHA256 hex digest of "t.body" under the shared secret; and for any
body whose signed string hashes differently from the one the header was
signed over, it returns SignatureMismatch. -/
theorem C1_signature_valid_iff (H : String → String → String) (now ts : Int)
    (body h sig : String)
    (hsig : (pySplit h ',')[1]? = some sig)
    (hts : pyInt (pySlice2 ((pySplit h ',').headD "")) = some ts)
    (hfresh : now - 30 * 60 ≤ ts) :
    (verifyWebhook H now body (some h) = .ok .valid ↔
      sig = "v0=" ++ H secret
        (pySlice2 ((pySplit h ',').headD "") ++ "." ++ body)) ∧
    (∀ body0 : String,
      sig = "v0=" ++ H secret
        (pySlice2 ((pySplit h ',').headD "") ++ "." ++ body0) →
      H secret (pySlice2 ((pySplit h ',').headD "") ++ "." ++ body) ≠
        H secret (pySlice2 ((pySplit h ',').headD "") ++ "." ++ body0) →
      verifyWebhook H now body (some h) = .ok .signatureMismatch) := by
  rw [verifyWebhook_reduce H now ts body h sig hsig hts, if_neg (by omega)]
  constructor
  · by_cases hEq : sig = "v0=" ++ H secret
        (pySlice2 ((pySplit h ',').headD "") ++ "." ++ body)
    · rw [if_neg (not_not_intro hEq)]
      exact ⟨fun _ => hEq, fun _ => rfl⟩
    · rw [if_pos hEq]
      exact ⟨fun hcon => absurd hcon (by simp), fun hcon => absurd hcon hEq⟩
  · intro body0 h0 hne
    have hEq : sig ≠ "v0=" ++ H secret
        (pySlice2 ((pySplit h ',').headD "") ++ "." ++ body) := by
      intro hcon
      exact hne (vzero_append_inj (hcon.symm.trans h0))
    rw [if_pos hEq]

/-- Concrete stand-in for the HMAC-SHA256 hex digest in witnesses. -/
def hmacDemo : String → String → String := fun k m => k ++ m

/-- C1 witness: a concrete valid header and a concrete mutated body. -/
theorem C1_signature_valid_iff_check :
    (verifyWebhook hmacDemo 5 "b" (some "t=5,v0=secret5.b") = .ok .valid ↔
      "v0=secret5.b" = "v0=" ++ hmacDemo secret
        (pySlice2 ((pySplit "t=5,v0=secret5.b" ',').headD "") ++ "." ++ "b")) ∧
    verifyWebhook hmacDemo 5 "c" (some "t=5,v0=secret5.b") =
      .ok .signatureMismatch := by
  constructor
  · exact (C1_signature_valid_iff hmacDemo 5 5 "b" "t=5,v0=secret5.b"
      "v0=secret5.b" (by decide) (by decide) (by decide)).1
  · exact (C1_signature_valid_iff hmacDemo 5 5 "c" "t=5,v0=secret5.b"
      "v0=secret5.b" (by decide) (by decide) (by decide)).2 "b"
      (by decide) (by decide)

/-- C5: with a parseable header carrying integer timestamp `ts`, the
request is rejected as stale exactly when `ts` is strictly below the
verification time minus 1800 seconds; the boundary value now - 1800
passes. -/
theorem C5_freshness_boundary (H : String → String → String) (now ts : Int)
    (body h sig : String)
    (hsig : (pySplit h ',')[1]? = some sig)
    (hts : pyInt (pySlice2 ((pySplit h ',').headD "")) = some ts) :
    (verifyWebhook H now body (some h) = .ok .stale ↔ ts < now - 1800) := by
  rw [verifyWebhook_reduce H now ts body h sig hsig hts]
  by_cases hlt : ts < now - 30 * 60
  · simp [hlt]; omega
  · rw [if_neg hlt]
    constructor
    · intro hcon
      by_cases hEq : sig ≠ "v0=" ++ H secret
          (pySlice2 ((pySplit h ',').headD "") ++ "." ++ body)
      · rw [if_pos hEq] at hcon; exact absurd hcon (by simp)
      · rw [if_neg hEq] at hcon; exact absurd hcon (by simp)
    · intro hlt2; omega

/-- C5 witness: timestamp 200 at verification times 2000 (the boundary,
accepted) and 2001 (one second past the boundary, rejected). -/
theorem C5_freshness_boundary_check :
    (verifyWebhook hmacDemo 2000 "b" (some "t=200,x") = .ok .stale ↔
      (200 : Int) < 2000 - 1800) ∧
    (verifyWebhook hmacDemo 2001 "b" (some "t=200,x") = .ok .stale ↔
      (200 : Int) < 2001 - 1800) := by
  constructor
  · exact C5_freshness_boundary hmacDemo 2000 200 "b" "t=200,x" "x"
      (by decide) (by decide)
  · exact C5_freshness_boundary hmacDemo 2001 200 "b" "t=200,x" "x"
      (by decide) (by decide)

/-- C7: a header without a comma-separated second field makes the handler
raise IndexError at main.py line 102, and a header whose timestamp field is
not an integer makes it raise ValueError at line 105 — uncontrolled
exceptions rather than a controlled Malformed result. -/
theorem C7_malformed_header_raises (H : String → String → String) :
    verifyWebhook H 0 "body" (some "t=123") = .error .indexError ∧
    verifyWebhook H 0 "body" (some "t=abc,v0=x") = .error .valueError :=
  ⟨rfl, rfl⟩

/-- Constant stand-in digest function for the C9 comparison scenario. -/
def constHmac : String → String → String := fun _ _ => "ab"

/-- C9: two equal-length provided signatures that both fail verification
against the same recomputed digest "v0=ab" take different numbers of
character comparisons under the short-circuit cost model of the plain
string inequality at main.py line 115 (1 when the first byte differs, 5
when the last byte differs), so the comparison is not constant time. -/
theorem C9_comparison_not_constant_time :
    verifyWebhook constHmac 0 "b" (some "t=0,x0=ab") =
      .ok .signatureMismatch ∧
    verifyWebhook constHmac 0 "b" (some "t=0,v0=ax") =
      .ok .signatureMismatch ∧
    "x0=ab".data.length = "v0=ab".data.length ∧
    "v0=ax".data.length = "v0=ab".data.length ∧
    strNeCost "x0=ab" "v0=ab" = 1 ∧
    strNeCost "v0=ax" "v0=ab" = 5 := by
  refine ⟨by decide, by decide, by decide, by decide, by decide, by decide⟩

end Friday

namespace Friday

/-! ## Post-call workflow and webhook handler (claims C2, C3, C4, C10) -/

/-- C2: given a verified webhook event's extracted fields, the post-call
workflow issues exactly contact-create, then conversation-create, then
assign, and then a close only when the should-support flag is false; when
the flag is true no close is ever issued. -/
theorem C2_workflow_order (env : IntercomEnv) (phone transcript : PyVal)
    (should_support : Bool) :
    orchestrate env phone transcript should_support =
      [Action.contactCreate phone,
       Action.conversationCreate transcript (env.contactId phone),
       Action.assign (env.conversationId transcript (env.contactId phone))
         admin_id smrtlite_id] ++
      (if should_support then []
       else [Action.close
         (env.conversationId transcript (env.contactId phone)) admin_id]) := by
  cases should_support <;> rfl

/-- C10: for every request whatsoever — any body, any header, any digest
function, any Intercom environment — the webhook handler issues no
Intercom call and never returns the success acknowledgment, because after
verification the raw bytes body is subscripted with string keys without
being JSON-parsed, which raises TypeError. -/
theorem C10_no_ticketing_ever (H : String → String → String) (now : Int)
    (env : IntercomEnv) (body : String) (header : Option String) :
    (receive_message H now env body header).2 = [] ∧
    (receive_message H now env body header).1 ≠
      .ok (.dict [("status", .str "received")]) := by
  unfold receive_message
  cases hv : verifyWebhook H now body header with
  | error e => simp
  | ok r =>
    cases r with
    | missingHeader => simp
    | stale => simp
    | signatureMismatch => simp
    | valid =>
      have hx : extractFields (.bytes body) = .error .typeError := rfl
      rw [hx]
      simp

/-- C4: whenever verification fails — missing header, stale timestamp, or
digest mismatch — the handler returns None immediately and no Intercom
call is issued. -/
theorem C4_failure_no_side_effects (H : String → String → String) (now : Int)
    (env : IntercomEnv) (body : String) (header : Option String)
    (hfail : verifyWebhook H now body header = .ok .missingHeader ∨
             verifyWebhook H now body header = .ok .stale ∨
             verifyWebhook H now body header = .ok .signatureMismatch) :
    receive_message H now env body header = (.ok .none, []) := by
  unfold receive_message
  rcases hfail with hv | hv | hv <;> rw [hv]

/-- C4 witness: a request with no signature header. -/
theorem C4_failure_no_side_effects_check :
    receive_message hmacDemo 0 ⟨fun _ => "c", fun _ _ => "v"⟩ "b" Option.none =
      (.ok .none, []) :=
  C4_failure_no_side_effects hmacDemo 0 ⟨fun _ => "c", fun _ _ => "v"⟩ "b"
    Option.none (Or.inl rfl)

/-- The exact webhook body of the C3 scenario (spec section 8). -/
def scenarioBody : String :=
  "\x7b\"data\":\x7b\"metadata\":\x7b\"phone_call\":\x7b\"external_number\":\"+15551234567\"\x7d\x7d,\"analysis\":\x7b\"transcript_summary\":\"caller asked about billing\",\"evalutation_criteria_results\":\x7b\"should_support\":false\x7d\x7d\x7d\x7d"

/-- C3: on the exact scenario body, presented with a fresh timestamp and a
correctly signed header (second field "v0=" followed by the digest of
"timestamp.body"; digests contain no comma), the handler raises TypeError
at the first field extraction and issues no Intercom call at all — neither
contact creation, nor conversation creation, nor assignment, nor closure
happens, contradicting the claimed scenario outcome. -/
theorem C3_scenario_typeerror (H : String → String → String)
    (env : IntercomEnv)
    (hH : ',' ∉ (H secret ("1700000000." ++ scenarioBody)).data) :
    receive_message H 1700000000 env scenarioBody
      (some ("t=1700000000," ++
        ("v0=" ++ H secret ("1700000000." ++ scenarioBody)))) =
      (.error .typeError, []) := by
  have hXcomma :
      ',' ∉ ("v0=" ++ H secret ("1700000000." ++ scenarioBody)).data := by
    rw [String.data_append]
    intro hmem
    rcases List.mem_append.mp hmem with h1 | h2
    · exact absurd h1 (by decide)
    · exact hH h2
  have hsplit : pySplit ("t=1700000000," ++
      ("v0=" ++ H secret ("1700000000." ++ scenarioBody))) ',' =
      ["t=1700000000",
       "v0=" ++ H secret ("1700000000." ++ scenarioBody)] := by
    unfold pySplit
    have hdata : ("t=1700000000," ++
        ("v0=" ++ H secret ("1700000000." ++ scenarioBody))).data =
        "t=1700000000".data ++ ',' ::
          ("v0=" ++ H secret ("1700000000." ++ scenarioBody)).data := by
      rw [String.data_append]
      have h13 : ("t=1700000000,").data = "t=1700000000".data ++ [','] := by
        decide
      rw [h13, List.append_assoc]
      rfl
    rw [hdata, pySplitAux_before_sep ',' _ _ _ (by decide),
      pySplitAux_no_sep ',' _ _ hXcomma]
    simp only [List.reverse_nil, List.nil_append]
  have hts : pyInt (pySlice2 ((pySplit ("t=1700000000," ++
      ("v0=" ++ H secret ("1700000000." ++ scenarioBody))) ',').headD ""))
      = some 1700000000 := by
    rw [hsplit]
    show pyInt (pySlice2 "t=1700000000") = some 1700000000
    decide
  have hverify : verifyWebhook H 1700000000 scenarioBody
      (some ("t=1700000000," ++
        ("v0=" ++ H secret ("1700000000." ++ scenarioBody)))) =
      .ok .valid := by
    rw [verifyWebhook_reduce H 1700000000 1700000000 scenarioBody _
      ("v0=" ++ H secret ("1700000000." ++ scenarioBody))
      (by rw [hsplit]; rfl) hts]
    rw [if_neg (by omega)]
    have harg : pySlice2 ((pySplit ("t=1700000000," ++
        ("v0=" ++ H secret ("1700000000." ++ scenarioBody))) ',').headD "")
        ++ "." ++ scenarioBody = "1700000000." ++ scenarioBody := by
      rw [hsplit]
      show ("1700000000" : String) ++ "." ++ scenarioBody =
        "1700000000." ++ scenarioBody
      apply string_eq_of_data
      rw [String.data_append, String.data_append, String.data_append]
      have hdot : "1700000000".data ++ ".".data = "1700000000.".data := by
        decide
      rw [← hdot, List.append_assoc]
    rw [harg, if_neg (not_not_intro rfl)]
  unfold receive_message
  rw [hverify]
  rfl

/-- Concrete comma-free stand-in digest for the C3 witness. -/
def constDigest : String → String → String := fun _ _ => "d"

/-- Concrete Intercom environment for witnesses. -/
def envDemo : IntercomEnv := ⟨fun _ => "contact", fun _ _ => "conv"⟩

/-- C3 witness: the scenario at a concrete digest function. -/
theorem C3_scenario_typeerror_check :
    receive_message constDigest 1700000000 envDemo scenarioBody
      (some ("t=1700000000," ++
        ("v0=" ++ constDigest secret ("1700000000." ++ scenarioBody)))) =
      (.error .typeError, []) :=
  C3_scenario_typeerror constDigest envDemo (by decide)

end Friday

namespace Friday

/-! ## Media-stream session lifecycle and frame ordering (claims C6, C8) -/

theorem countEnd_runLoop (msgs : List TwilioMsg) :
    countEnd (runLoop msgs) = 0 := by
  induction msgs with
  | nil => rfl
  | cons m rest ih =>
    cases m <;> simp [runLoop, countEnd, List.countP_cons, isEnd] <;>
      try simpa [countEnd] using ih

/-- C6 counterexample: in the execution where the Conversation constructor
raises, the handler completes (the finally block's NameError is swallowed)
with zero end-session calls, so the session is not "ended exactly once
regardless of an error during session construction" as the claim states. -/
theorem C6_construct_error_zero_end :
    countEnd (handle_media_stream ⟨false, true, [], true⟩) = 0 ∧
    countEnd (handle_media_stream ⟨false, true, [], true⟩) ≠ 1 := by
  decide

/-- C6 amended: in every execution in which the Conversation object is
successfully constructed — whatever happens afterwards (start failure,
disconnect, loop error, end-session failure) — end_session is called
exactly once before the handler completes; when construction itself
raises, no session object exists and zero end calls are made. -/
theorem C6_end_called_once (sc : MsScenario) :
    countEnd (handle_media_stream sc) =
      (if sc.constructOk then 1 else 0) := by
  obtain ⟨c, s, msgs, e⟩ := sc
  cases c <;> cases s <;> cases e <;>
    simp [handle_media_stream, finallyBlock, countEnd, List.countP_append,
      List.countP_cons, isEnd] <;>
    try simpa [countEnd] using countEnd_runLoop msgs

theorem deliveredOf_runLoop_sublist (msgs : List TwilioMsg) :
    (List.filterMap deliveredOf (runLoop msgs)).Sublist (arrivedAudio msgs) := by
  induction msgs with
  | nil => simp [runLoop, arrivedAudio]
  | cons m rest ih =>
    cases m with
    | empty =>
      simpa [runLoop, arrivedAudio, List.filterMap_cons, audioOf] using ih
    | control =>
      simpa [runLoop, arrivedAudio, List.filterMap_cons, audioOf,
        deliveredOf] using ih
    | audio n =>
      simpa [runLoop, arrivedAudio, List.filterMap_cons, audioOf,
        deliveredOf] using List.Sublist.cons₂ n ih
    | badJson =>
      simp only [runLoop, List.filterMap_nil]
      exact List.nil_sublist _

theorem deliveredOf_runLoop_eq (msgs : List TwilioMsg)
    (h : TwilioMsg.badJson ∉ msgs) :
    List.filterMap deliveredOf (runLoop msgs) = arrivedAudio msgs := by
  induction msgs with
  | nil => rfl
  | cons m rest ih =>
    rw [List.mem_cons, not_or] at h
    cases m with
    | empty =>
      simpa [runLoop, arrivedAudio, List.filterMap_cons, audioOf]
        using ih h.2
    | control =>
      simpa [runLoop, arrivedAudio, List.filterMap_cons, audioOf,
        deliveredOf] using ih h.2
    | audio n =>
      simpa [runLoop, arrivedAudio, List.filterMap_cons, audioOf,
        deliveredOf] using ih h.2
    | badJson => exact absurd rfl h.1

theorem deliveredOf_finallyBlock (c e : Bool) :
    List.filterMap deliveredOf (finallyBlock c e) = [] := by
  cases c <;> cases e <;> rfl

/-- C8: in every media-stream execution, the audio frames delivered to the
AI-session input form an order-preserving subsequence of the audio frames
among the inbound messages (no frame is reordered past another); and when
the session came up and no inbound message is malformed, every arrived
audio frame is delivered, in arrival order. -/
theorem C8_frame_order_preserved (sc : MsScenario) :
    (deliveredSeqs (handle_media_stream sc)).Sublist (arrivedAudio sc.msgs) ∧
    (sc.constructOk = true → sc.startOk = true →
      TwilioMsg.badJson ∉ sc.msgs →
      deliveredSeqs (handle_media_stream sc) = arrivedAudio sc.msgs) := by
  obtain ⟨c, s, msgs, e⟩ := sc
  cases c with
  | false =>
    have hmain : deliveredSeqs (handle_media_stream ⟨false, s, msgs, e⟩)
        = [] := by
      simp [handle_media_stream, deliveredSeqs, deliveredOf_finallyBlock]
    refine ⟨?_, ?_⟩
    · rw [hmain]; exact List.nil_sublist _
    · intro hc; exact absurd hc (by simp)
  | true =>
    cases s with
    | false =>
      have hmain : deliveredSeqs (handle_media_stream ⟨true, false, msgs, e⟩)
          = [] := by
        simp [handle_media_stream, deliveredSeqs, List.filterMap_append,
          deliveredOf_finallyBlock, List.filterMap_cons, deliveredOf]
      refine ⟨?_, ?_⟩
      · rw [hmain]; exact List.nil_sublist _
      · intro _ hs; exact absurd hs (by simp)
    | true =>
      have hmain : deliveredSeqs (handle_media_stream ⟨true, true, msgs, e⟩) =
          List.filterMap deliveredOf (runLoop msgs) := by
        simp [handle_media_stream, deliveredSeqs, List.filterMap_append,
          List.filterMap_cons, deliveredOf, deliveredOf_finallyBlock]
      refine ⟨?_, ?_⟩
      · rw [hmain]; exact deliveredOf_runLoop_sublist msgs
      · intro _ _ hb
        rw [hmain]
        exact deliveredOf_runLoop_eq msgs hb

end Friday
